import Mathlib

/-!
Verification development for the authorization, quota and rate-limiting
engine of the mcp-publish-wordpress repository.

The Python sources embedded here:
 - `src/mcp_wordpress/core/security.py` (`RateLimiter`, `AuditLogger`,
   `SessionManager`, `SecurityManager`),
 - `src/mcp_wordpress/services/role_template_service.py`
   (`RoleTemplateService.get_effective_permissions`, `_get_role_permissions`),
 - `src/mcp_wordpress/auth/permission_checker.py`
   (`PermissionChecker._check_working_hours`,
   `_check_quota_limits_detailed`).

Modelling conventions:
 - UTC datetimes are modelled as `Nat` seconds; `timedelta(minutes=1)` is
   `60`, `timedelta(hours=1)` is `3600`.  Since all timestamps are
   nonnegative, Python's `ts < now - delta` coincides with the truncated
   `Nat` subtraction used here.
 - Python `dict`s keyed by strings become either total functions with the
   `defaultdict` default, or association lists (`List (String × _)`) where
   emptiness / insertion order is observable.
 - `deque` is a `List` whose head is the front (the `popleft` end).
 - Exceptions are modelled with `Except String`; a `try/except` block is
   the corresponding `match` on the `Except` value.
 - JSON-ish permission values (bools, strings, ints, int lists, nested
   dicts) are the inductive `PVal`; Python truthiness is `pyTruthy`.
-/

/-- JSON-like permission value as stored in agent / role-template
permission maps (`permissions`, `quota_limits`, `working_hours`). -/
inductive PVal where
  | pbool : Bool → PVal
  | pstr : String → PVal
  | pnat : Nat → PVal
  | pnats : List Nat → PVal
  | pobj : List (String × PVal) → PVal
deriving Repr

/-- Python truthiness (`if not x`) for permission values. -/
def pyTruthy : PVal → Bool
  | .pbool b => b
  | .pstr s => !(s.isEmpty)
  | .pnat n => n != 0
  | .pnats l => !(l.isEmpty)
  | .pobj d => !(d.isEmpty)

/-- Python `x.get(k, default)` on a value expected to be a dict: raises
`AttributeError` when `x` is not a dict. -/
def pGetObj : PVal → String → PVal → Except String PVal
  | .pobj d, k, dflt => .ok ((List.lookup k d).getD dflt)
  | _, _, _ => .error "AttributeError"

/-- Coerce a permission value to an int where Python would use it as one
(`x > 0`, arithmetic); non-numeric values raise `TypeError`.  Python bools
are ints (`True == 1`). -/
def pAsNat : PVal → Except String Nat
  | .pnat n => .ok n
  | .pbool b => .ok (if b then 1 else 0)
  | _ => .error "TypeError"

/-- Coerce a permission value to a string (e.g. a timezone name fed to
`pytz.timezone`); other shapes raise. -/
def pAsStr : PVal → Except String String
  | .pstr s => .ok s
  | _ => .error "TypeError"

/-- Coerce a permission value to an int list (the `working_days`
membership test `x in l` raises `TypeError` on non-iterables). -/
def pAsNatList : PVal → Except String (List Nat)
  | .pnats l => .ok l
  | _ => .error "TypeError"

/-- Audit log entry (`AuditLogEntry` dataclass in `core/security.py`).
`details` values are rendered to strings. -/
structure AuditLogEntry where
  timestamp : Nat
  agent_id : String
  action : String
  resource : String
  success : Bool
  ip_address : Option String := none
  user_agent : Option String := none
  details : List (String × String) := []
deriving Repr, DecidableEq

/-- Rate limiting configuration (`RateLimitConfig` dataclass), with the
source's defaults. -/
structure RateLimitConfig where
  requests_per_minute : Nat := 60
  requests_per_hour : Nat := 1000
  burst_allowance : Nat := 10
  lockout_duration_minutes : Nat := 15
deriving Repr, DecidableEq

/-- State of `RateLimiter`: per-agent sliding windows
(`defaultdict(deque)`, default empty) and the lockout map
(`locked_agents : Dict[str, datetime]`, modelled as a partial map). -/
structure RateLimiterState where
  config : RateLimitConfig
  minute_windows : String → List Nat
  hour_windows : String → List Nat
  locked_agents : String → Option Nat

/-- Point update of a `defaultdict`-style map. -/
def updMap {α : Type} (m : String → α) (k : String) (v : α) : String → α :=
  fun x => if x = k then v else m x

/-- Fresh rate limiter (`RateLimiter.__init__`). -/
def rlInit (cfg : RateLimitConfig) : RateLimiterState :=
  { config := cfg, minute_windows := fun _ => [], hour_windows := fun _ => [],
    locked_agents := fun _ => none }

/-- Embeds `RateLimiter._clean_windows`: pop expired entries from the front of
both windows (`while w and w[0] < cutoff: w.popleft()`). -/
def clean_windows (s : RateLimiterState) (a : String) (now : Nat) : RateLimiterState :=
  { s with
    minute_windows :=
      updMap s.minute_windows a ((s.minute_windows a).dropWhile (fun t => t < now - 60)),
    hour_windows :=
      updMap s.hour_windows a ((s.hour_windows a).dropWhile (fun t => t < now - 3600)) }

/-- Embeds `RateLimiter._apply_lockout`: record the lockout expiry and emit the
`rate_limit_violation` audit event (sent to the security manager's audit
logger by the caller). -/
def apply_lockout (s : RateLimiterState) (a : String) (now : Nat) :
    RateLimiterState × AuditLogEntry :=
  let lockout_until := now + 60 * s.config.lockout_duration_minutes
  ({ s with locked_agents := updMap s.locked_agents a (some lockout_until) },
   { timestamp := now, agent_id := a, action := "rate_limit_violation",
     resource := "api", success := false,
     details := [("lockout_until", toString lockout_until),
                 ("lockout_duration_minutes", toString s.config.lockout_duration_minutes)] })

/-- Result of one `check_rate_limit` call: the returned boolean, the
successor state, and the audit events emitted on the way. -/
structure RLResult where
  allowed : Bool
  state : RateLimiterState
  events : List AuditLogEntry

/-- Body of `RateLimiter.check_rate_limit` after the lockout gate:
clean both windows, test the minute cap then the hour cap (locking out on
breach), otherwise append `now` to both windows and allow. -/
def rl_check_body (s : RateLimiterState) (a : String) (now : Nat) : RLResult :=
  let s1 := clean_windows s a now
  if s1.config.requests_per_minute ≤ (s1.minute_windows a).length then
    let r := apply_lockout s1 a now
    { allowed := false, state := r.1, events := [r.2] }
  else if s1.config.requests_per_hour ≤ (s1.hour_windows a).length then
    let r := apply_lockout s1 a now
    { allowed := false, state := r.1, events := [r.2] }
  else
    { allowed := true,
      state :=
        { s1 with
          minute_windows := updMap s1.minute_windows a (s1.minute_windows a ++ [now]),
          hour_windows := updMap s1.hour_windows a (s1.hour_windows a ++ [now]) },
      events := [] }

/-- Embeds `RateLimiter.check_rate_limit`: deny immediately while a lockout is
active; clear an expired lockout lazily; then run the window checks. -/
def check_rate_limit (s : RateLimiterState) (a : String) (now : Nat) : RLResult :=
  match s.locked_agents a with
  | some lockout_until =>
    if now < lockout_until then
      { allowed := false, state := s, events := [] }
    else
      rl_check_body { s with locked_agents := updMap s.locked_agents a none } a now
  | none => rl_check_body s a now

/-- Return value of `RateLimiter.get_agent_status` (the dict it builds).
`remaining_*` use `max(0, limit - count)`, which is `Nat` subtraction. -/
structure AgentStatus where
  agent_id : String
  minute_requests : Nat
  minute_limit : Nat
  hour_requests : Nat
  hour_limit : Nat
  is_locked : Bool
  lockout_until : Option Nat
  remaining_minute : Nat
  remaining_hour : Nat
deriving Repr, DecidableEq

/-- Embeds `RateLimiter.get_agent_status`: cleans the agent's windows (a state
mutation), then reports counts, limits, lockout state and remaining
allowances. -/
def get_agent_status (s : RateLimiterState) (a : String) (now : Nat) :
    AgentStatus × RateLimiterState :=
  let s1 := clean_windows s a now
  let minute_requests := (s1.minute_windows a).length
  let hour_requests := (s1.hour_windows a).length
  ({ agent_id := a,
     minute_requests := minute_requests,
     minute_limit := s1.config.requests_per_minute,
     hour_requests := hour_requests,
     hour_limit := s1.config.requests_per_hour,
     is_locked := (s1.locked_agents a).isSome,
     lockout_until := s1.locked_agents a,
     remaining_minute := s1.config.requests_per_minute - minute_requests,
     remaining_hour := s1.config.requests_per_hour - hour_requests }, s1)

/-- State of `AuditLogger`: a ring buffer `deque(maxlen=max_memory_entries)`
whose head is the oldest entry. -/
structure AuditLoggerState where
  max_memory_entries : Nat := 1000
  memory_log : List AuditLogEntry := []
deriving Repr, DecidableEq

/-- Embeds `AuditLogger.__init__`. -/
def auditInit (cap : Nat) : AuditLoggerState :=
  { max_memory_entries := cap, memory_log := [] }

/-- Embeds `AuditLogger.log_event`: append to the in-memory deque; a
`deque(maxlen=n)` discards entries from the front so that at most `n`
remain (the database write in the source is a no-op placeholder). -/
def log_event (al : AuditLoggerState) (entry : AuditLogEntry) : AuditLoggerState :=
  let log := al.memory_log ++ [entry]
  { al with memory_log := log.drop (log.length - al.max_memory_entries) }

/-- Log a batch of events in order. -/
def log_events (al : AuditLoggerState) (es : List AuditLogEntry) : AuditLoggerState :=
  es.foldl log_event al

/-- Distinct elements of a list in first-occurrence order — the key order
of a Python dict/defaultdict populated by iteration, and the element count
of `set(...)`. -/
def firstOccurrences (l : List String) : List String :=
  l.foldl (fun acc a => if a ∈ acc then acc else acc ++ [a]) []

/-- Return value of `AuditLogger.get_security_summary`.  `success_rate` is
a rational (the source computes a float and rounds to 2 decimals; exact
rational arithmetic stands in for IEEE floats). -/
structure SecuritySummary where
  period_hours : Nat
  total_events : Nat
  failed_events : Nat
  success_rate : ℚ
  unique_agents : Nat
  action_breakdown : List (String × Nat)
  last_updated : Nat
deriving Repr, DecidableEq

/-- Round a rational to two decimal places (Python `round(x, 2)`;
tie-breaking of binary floats is abstracted to exact rounding). -/
def round2 (q : ℚ) : ℚ := (round (q * 100) : ℤ) / 100

/-- Embeds `AuditLogger.get_security_summary`: filter events of the last `hours`
hours, count totals / failures / distinct agents, break counts down per
action, and compute the success rate only when the total is nonzero. -/
def get_security_summary (al : AuditLoggerState) (now : Nat) (hours : Nat) : SecuritySummary :=
  let cutoff := now - hours * 3600
  let recent_events := al.memory_log.filter (fun e => cutoff ≤ e.timestamp)
  let total_events := recent_events.length
  let failed_events := (recent_events.filter (fun e => !e.success)).length
  let unique_agents := (firstOccurrences (recent_events.map (fun e => e.agent_id))).length
  let action_counts :=
    (firstOccurrences (recent_events.map (fun e => e.action))).map
      (fun act => (act, (recent_events.filter (fun e => e.action = act)).length))
  { period_hours := hours,
    total_events := total_events,
    failed_events := failed_events,
    success_rate :=
      if 0 < total_events then
        round2 (((total_events : ℚ) - failed_events) / total_events * 100)
      else 100,
    unique_agents := unique_agents,
    action_breakdown := action_counts,
    last_updated := now }

/-- Embeds `SessionInfo` dataclass. -/
structure SessionInfo where
  agent_id : String
  agent_name : String
  created_at : Nat
  last_activity : Nat
  request_count : Nat := 0
  failed_attempts : Nat := 0
  is_locked : Bool := false
  lockout_until : Option Nat := none
deriving Repr, DecidableEq

/-- State of `SessionManager`: per-agent sessions. -/
structure SessionManagerState where
  session_timeout : Nat := 3600
  sessions : String → Option SessionInfo

/-- Embeds `SessionManager.create_session`: refresh an existing session
(bump `last_activity` and `request_count`) or create a new one and emit
the `session_created` audit event. -/
def create_session (sm : SessionManagerState) (aid aname : String) (now : Nat) :
    SessionManagerState × List AuditLogEntry :=
  match sm.sessions aid with
  | some session =>
    let session' := { session with last_activity := now,
                                   request_count := session.request_count + 1 }
    ({ sm with sessions := updMap sm.sessions aid (some session') }, [])
  | none =>
    let session : SessionInfo :=
      { agent_id := aid, agent_name := aname, created_at := now,
        last_activity := now, request_count := 1 }
    ({ sm with sessions := updMap sm.sessions aid (some session) },
     [{ timestamp := now, agent_id := aid, action := "session_created",
        resource := "auth", success := true, details := [("agent_name", aname)] }])

/-- Combined state of the `SecurityManager` singleton. -/
structure SecurityManagerState where
  rate_limiter : RateLimiterState
  session_manager : SessionManagerState
  audit_logger : AuditLoggerState
  is_initialized : Bool := false

/-- Audit entry built by `SecurityManager.log_audit_event` for the plain
api events of `authenticate_request`. -/
def mkApiEntry (now : Nat) (aid action : String) (success : Bool)
    (details : List (String × String)) : AuditLogEntry :=
  { timestamp := now, agent_id := aid, action := action, resource := "api",
    success := success, details := details }

/-- Embeds `SecurityManager.authenticate_request`.  `fault = some msg` injects an
unexpected exception raised inside `create_session` (e.g. a database
error); the surrounding `try/except` then audits an `authentication_error`
and denies.  On a rate-limit denial the call audits
`request_rate_limited`; otherwise it refreshes the session and audits
`request_authenticated`. -/
def authenticate_request (s : SecurityManagerState) (aid aname : String) (now : Nat)
    (fault : Option String) : Bool × SecurityManagerState :=
  let r := check_rate_limit s.rate_limiter aid now
  let s1 : SecurityManagerState :=
    { s with rate_limiter := r.state, audit_logger := log_events s.audit_logger r.events }
  if r.allowed = false then
    let al := log_event s1.audit_logger (mkApiEntry now aid "request_rate_limited" false [])
    (false, { s1 with audit_logger := al })
  else
    match fault with
    | some msg =>
      let al := log_event s1.audit_logger
        (mkApiEntry now aid "authentication_error" false [("error", msg)])
      (false, { s1 with audit_logger := al })
    | none =>
      let c := create_session s1.session_manager aid aname now
      let s2 : SecurityManagerState :=
        { s1 with session_manager := c.1, audit_logger := log_events s1.audit_logger c.2 }
      let al := log_event s2.audit_logger (mkApiEntry now aid "request_authenticated" true [])
      (true, { s2 with audit_logger := al })

/-- Permission map: a Python `dict` of string keys in insertion order. -/
def PermMap : Type := List (String × PVal)

/-- Python dict merge: a copy of `t` updated with `o`: keys of `t` keep their
positions (values overridden by `o` where present); keys only in `o` are
appended in `o`'s order. -/
def dictUpdate (t o : List (String × PVal)) : List (String × PVal) :=
  (t.map fun p =>
    match List.lookup p.1 o with
    | some v => (p.1, v)
    | none => p) ++
  o.filter fun p => (List.lookup p.1 t).isNone

/-- Agent database record, restricted to the columns
`get_effective_permissions` reads (`models/agent.py`). -/
structure AgentRec where
  id : String
  permissions : List (String × PVal)
  permissions_override : Option (List (String × PVal)) := none
  role_template_id : Option String := none
  status : String := "active"

/-- Role template database record, restricted to the columns the service
reads (`models/role_templates.py`). -/
structure RoleTemplateRec where
  id : String
  permissions : List (String × PVal)
  is_active : Bool := true

/-- Database environment for the role template service: the two tables
plus fault flags making the corresponding session query raise. -/
structure DbEnv where
  agents : List AgentRec
  role_templates : List RoleTemplateRec
  agentFetchFails : Bool := false
  roleFetchFails : Bool := false

/-- Embeds `RoleTemplateService._get_role_permissions`: serve from the
`_role_cache` when present (no `is_active` filter on cache hits);
otherwise query for an active template, caching a hit; any exception or a
miss yields an empty dict (its own `try/except`). -/
def getRolePermissions (env : DbEnv) (cache : List (String × RoleTemplateRec))
    (role_id : String) : List (String × PVal) × List (String × RoleTemplateRec) :=
  match List.lookup role_id cache with
  | some role => (role.permissions, cache)
  | none =>
    if env.roleFetchFails then ([], cache)
    else
      match env.role_templates.find? (fun r => r.id == role_id && r.is_active) with
      | some role => (role.permissions, (role_id, role) :: cache)
      | none => ([], cache)

/-- Embeds `RoleTemplateService.get_effective_permissions`: fetch the agent (any
exception, caught by the outer `try/except`, or a missing record yields
an empty dict); with no role template reference (`None` or `""`, both falsy) return
the agent's own permissions; resolve the template's permissions, falling
back to the agent's own permissions when that comes back empty; otherwise
shallow-merge the truthy override on top of the template permissions. -/
def get_effective_permissions (env : DbEnv) (cache : List (String × RoleTemplateRec))
    (agent_id : String) : List (String × PVal) × List (String × RoleTemplateRec) :=
  if env.agentFetchFails then ([], cache)
  else
    match env.agents.find? (fun a => a.id == agent_id) with
    | none => ([], cache)
    | some agent =>
      let rid := agent.role_template_id.getD ""
      if rid = "" then (agent.permissions, cache)
      else
        let rp := getRolePermissions env cache rid
        if rp.1.isEmpty then (agent.permissions, rp.2)
        else
          let ov := agent.permissions_override.getD []
          if ov.isEmpty then (rp.1, rp.2)
          else (dictUpdate rp.1 ov, rp.2)

/-- Embeds `PermissionCheckResult` dataclass of `permission_checker.py`.
`remaining_quota` maps window names to remaining counts. -/
structure PermissionCheckResult where
  allowed : Bool
  reason : Option String := none
  remaining_quota : Option (List (String × Nat)) := none
deriving Repr, DecidableEq

/-- Body of `PermissionChecker._check_quota_limits_detailed` inside its
`try`: an empty/falsy `quota_limits` means no limits; a positive
`daily_articles` cap records `max(0, cap - count)` as remaining and denies
once today's count reaches the cap; then the same for `monthly_articles`.
Ill-typed configuration values raise (caught by the wrapper). -/
def check_quota_body (dailyCount monthlyCount : Nat) (permissions : List (String × PVal)) :
    Except String PermissionCheckResult := do
  let quota_limits := (List.lookup "quota_limits" permissions).getD (.pobj [])
  if pyTruthy quota_limits = false then
    return { allowed := true, reason := some "无配额限制", remaining_quota := some [] }
  let daily_limit ← pAsNat (← pGetObj quota_limits "daily_articles" (.pnat 0))
  let rq1 : List (String × Nat) :=
    if 0 < daily_limit then [("daily", daily_limit - dailyCount)] else []
  if 0 < daily_limit ∧ daily_limit ≤ dailyCount then
    return { allowed := false,
             reason := some s!"日配额超限: {dailyCount}/{daily_limit}",
             remaining_quota := some rq1 }
  let monthly_limit ← pAsNat (← pGetObj quota_limits "monthly_articles" (.pnat 0))
  let rq2 : List (String × Nat) :=
    if 0 < monthly_limit then rq1 ++ [("monthly", monthly_limit - monthlyCount)] else rq1
  if 0 < monthly_limit ∧ monthly_limit ≤ monthlyCount then
    return { allowed := false,
             reason := some s!"月配额超限: {monthlyCount}/{monthly_limit}",
             remaining_quota := some rq2 }
  return { allowed := true, reason := some "配额检查通过", remaining_quota := some rq2 }

/-- Embeds `PermissionChecker._check_quota_limits_detailed`: the daily and
monthly counts are the article-table lookups, passed in as parameters; an
exception inside the body is converted to a denial. -/
def check_quota_limits_detailed (dailyCount monthlyCount : Nat)
    (permissions : List (String × PVal)) : PermissionCheckResult :=
  match check_quota_body dailyCount monthlyCount permissions with
  | .ok r => r
  | .error e => { allowed := false, reason := some s!"配额检查失败: {e}" }

/-- Local "now" as seen through one timezone: `datetime.now(tz).weekday()`
(0 = Monday .. 6 = Sunday) and the local time of day in seconds. -/
structure TzInfo where
  weekday : Nat
  timeOfDay : Nat
deriving Repr, DecidableEq

/-- Environment of `_check_working_hours`: the timezone database
(`pytz.timezone` raises `UnknownTimeZoneError` on names not in it) at the
moment of the call. -/
structure ClockEnv where
  tzdb : List (String × TzInfo)

/-- One decimal digit of an isoformat field. -/
def digitVal (c : Char) : Except String Nat :=
  if c.isDigit then .ok (c.toNat - 48) else .error "ValueError"

/-- Embeds `datetime.time.fromisoformat` restricted to the zero-padded
`HH:MM` and `HH:MM:SS` shapes the working-hours configuration uses, as
seconds since midnight; anything else raises `ValueError`. -/
def time_fromisoformat (s : String) : Except String Nat := do
  match s.toList with
  | [h1, h2, ':', m1, m2] =>
    let hh := (← digitVal h1) * 10 + (← digitVal h2)
    let mm := (← digitVal m1) * 10 + (← digitVal m2)
    if hh < 24 ∧ mm < 60 then return hh * 3600 + mm * 60
    else .error "ValueError"
  | [h1, h2, ':', m1, m2, ':', s1, s2] =>
    let hh := (← digitVal h1) * 10 + (← digitVal h2)
    let mm := (← digitVal m1) * 10 + (← digitVal m2)
    let ss := (← digitVal s1) * 10 + (← digitVal s2)
    if hh < 24 ∧ mm < 60 ∧ ss < 60 then return hh * 3600 + mm * 60 + ss
    else .error "ValueError"
  | _ => .error "ValueError"

/-- Body of `PermissionChecker._check_working_hours` inside its `try`:
allow when the restriction is not enabled; resolve the timezone and the
local now; deny when the 1-based local weekday is not a configured working
day; parse the start and end times and allow exactly when the local time
of day lies in `[start, end]`.  Each failure point raises into the
`Except` error track. -/
def check_working_hours_body (env : ClockEnv) (permissions : List (String × PVal)) :
    Except String Bool := do
  let quota_limits := (List.lookup "quota_limits" permissions).getD (.pobj [])
  let working_hours ← pGetObj quota_limits "working_hours" (.pobj [])
  let enabled ← pGetObj working_hours "enabled" (.pbool false)
  if pyTruthy enabled = false then
    return true
  let tzName ← pAsStr (← pGetObj working_hours "timezone" (.pstr "UTC"))
  let tz ← match List.lookup tzName env.tzdb with
    | some t => pure t
    | none => Except.error "UnknownTimeZoneError"
  let working_days ← pAsNatList (← pGetObj working_hours "working_days" (.pnats [1, 2, 3, 4, 5, 6, 7]))
  if (tz.weekday + 1) ∉ working_days then
    return false
  let start_time ← time_fromisoformat (← pAsStr (← pGetObj working_hours "start" (.pstr "00:00")))
  let end_time ← time_fromisoformat (← pAsStr (← pGetObj working_hours "end" (.pstr "23:59")))
  return decide (start_time ≤ tz.timeOfDay ∧ tz.timeOfDay ≤ end_time)

/-- Embeds `PermissionChecker._check_working_hours`: the `except` handler turns
any resolution error into `True` (fail open). -/
def check_working_hours (env : ClockEnv) (permissions : List (String × PVal)) : Bool :=
  match check_working_hours_body env permissions with
  | .ok b => b
  | .error _ => true

/-! Helper lemmas. -/

/-- Updating a point of a map with its current value is the identity. -/
theorem updMap_self {α : Type} (m : String → α) (a : String) : updMap m a (m a) = m := by
  funext x
  by_cases hx : x = a <;> simp [updMap, hx]

/-- Reading an updated map off the updated point. -/
theorem updMap_ne {α : Type} (m : String → α) (a : String) (v : α) (b : String)
    (hb : ¬ b = a) : updMap m a v b = m b := by
  simp [updMap, hb]

/-- Dropping a false-everywhere prefix predicate changes nothing. -/
theorem dropWhile_eq_self_of_none (p : Nat → Bool) (l : List Nat)
    (h : ∀ x ∈ l, p x = false) : l.dropWhile p = l := by
  cases l with
  | nil => rfl
  | cons x xs =>
    rw [List.dropWhile_cons_of_neg]
    simp [h x (by simp)]

/-- Logging one event keeps the configured capacity. -/
theorem log_event_cap (al : AuditLoggerState) (e : AuditLogEntry) :
    (log_event al e).max_memory_entries = al.max_memory_entries := rfl

/-- Logging a batch keeps the configured capacity. -/
theorem log_events_cap (es : List AuditLogEntry) : ∀ al : AuditLoggerState,
    (log_events al es).max_memory_entries = al.max_memory_entries := by
  induction es with
  | nil => intro al; rfl
  | cons e es ih =>
    intro al
    show (log_events (log_event al e) es).max_memory_entries = _
    rw [ih (log_event al e), log_event_cap]

/-- Trimming to the last `cap` entries is idempotent across appends. -/
theorem drop_trim_append (L es : List AuditLogEntry) (cap : Nat) :
    (L.drop (L.length - cap) ++ es).drop ((L.drop (L.length - cap) ++ es).length - cap) =
      (L ++ es).drop ((L ++ es).length - cap) := by
  by_cases hc : L.length ≤ cap
  · have h0 : L.length - cap = 0 := by omega
    simp [h0]
  · have hk : L.length - cap ≤ L.length := by omega
    rw [List.length_append, List.length_drop]
    have h1 : L.length - (L.length - cap) + es.length - cap = es.length := by omega
    rw [h1, List.length_append]
    have h2 : L.length + es.length - cap = (L.length - cap) + es.length := by omega
    rw [h2, ← List.drop_drop, List.drop_append_of_le_length hk]

/-- Characterization of the ring buffer after a batch of inserts: the
buffer holds the last `cap` entries of `prior ++ batch`. -/
theorem log_events_memory_log (cap : Nat) (es : List AuditLogEntry) :
    ∀ l : List AuditLogEntry, l.length ≤ cap →
      (log_events { max_memory_entries := cap, memory_log := l } es).memory_log =
        (l ++ es).drop ((l ++ es).length - cap) := by
  induction es with
  | nil =>
    intro l h
    have h0 : l.length - cap = 0 := by omega
    simp [log_events, h0]
  | cons e es ih =>
    intro l h
    have hstep : log_event { max_memory_entries := cap, memory_log := l } e =
        { max_memory_entries := cap,
          memory_log := (l ++ [e]).drop ((l ++ [e]).length - cap) } := rfl
    have hlen : ((l ++ [e]).drop ((l ++ [e]).length - cap)).length ≤ cap := by
      rw [List.length_drop]
      omega
    show (log_events (log_event { max_memory_entries := cap, memory_log := l } e) es).memory_log = _
    rw [hstep, ih _ hlen]
    have hL : (l ++ e :: es) = (l ++ [e]) ++ es := by simp
    rw [hL]
    exact drop_trim_append (l ++ [e]) es cap

/-- Ring buffer contents when starting from an empty logger. -/
theorem log_events_from_empty (cap : Nat) (es : List AuditLogEntry) :
    (log_events (auditInit cap) es).memory_log = es.drop (es.length - cap) := by
  simpa using log_events_memory_log cap es [] (by simp)

/-- Sample audit entry used by concrete witnesses. -/
def sampleEntry (n : Nat) : AuditLogEntry :=
  { timestamp := n, agent_id := "agent", action := "act", resource := "api", success := true }

/-- C7: for every sequence of `log_event` calls on an audit log of
capacity `C`, the buffer never holds more than `C` entries; after
inserting `C + 1` entries the buffer holds exactly `C` entries and they
are the most recent `C` in insertion order (the oldest entry is gone). -/
theorem c7_audit_ring_buffer :
    (∀ (cap : Nat) (es : List AuditLogEntry),
        (log_events (auditInit cap) es).memory_log.length ≤ cap) ∧
    (∀ (cap : Nat) (es : List AuditLogEntry), es.length = cap + 1 →
        (log_events (auditInit cap) es).memory_log = es.drop 1 ∧
        (log_events (auditInit cap) es).memory_log.length = cap) := by
  constructor
  · intro cap es
    rw [log_events_from_empty, List.length_drop]
    omega
  · intro cap es h
    constructor
    · rw [log_events_from_empty, h]
      simp
    · rw [log_events_from_empty, List.length_drop]
      omega

/-- Witness for C7 at capacity 2 with three inserted entries. -/
theorem c7_audit_ring_buffer_witness :
    ([sampleEntry 1, sampleEntry 2, sampleEntry 3].length = 2 + 1) ∧
    ((log_events (auditInit 2) [sampleEntry 1, sampleEntry 2, sampleEntry 3]).memory_log =
        [sampleEntry 1, sampleEntry 2, sampleEntry 3].drop 1 ∧
     (log_events (auditInit 2) [sampleEntry 1, sampleEntry 2, sampleEntry 3]).memory_log.length = 2) :=
  ⟨rfl, c7_audit_ring_buffer.2 2 [sampleEntry 1, sampleEntry 2, sampleEntry 3] rfl⟩

/-- C10: when no stored entry is within the last `hours` hours,
`get_security_summary` reports zero totals, zero failures, zero distinct
agents, an empty per-action breakdown, and a success rate of 100 (the
guarded division is never taken). -/
theorem c10_security_summary_empty (al : AuditLoggerState) (now hours : Nat)
    (h : ∀ e ∈ al.memory_log, e.timestamp < now - hours * 3600) :
    get_security_summary al now hours =
      { period_hours := hours, total_events := 0, failed_events := 0,
        success_rate := 100, unique_agents := 0, action_breakdown := [],
        last_updated := now } := by
  have hf : (al.memory_log.filter fun e => decide (now - hours * 3600 ≤ e.timestamp)) = [] := by
    rw [List.filter_eq_nil_iff]
    intro e he
    simpa using Nat.not_le.mpr (h e he)
  simp only [get_security_summary, hf]
  simp [firstOccurrences]

/-- Witness for C10: a logger holding one old entry, queried over the
last hour. -/
theorem c10_security_summary_empty_witness :
    get_security_summary { max_memory_entries := 1000, memory_log := [sampleEntry 5] } 10000 1 =
      { period_hours := 1, total_events := 0, failed_events := 0,
        success_rate := 100, unique_agents := 0, action_breakdown := [],
        last_updated := 10000 } :=
  c10_security_summary_empty _ 10000 1 (by decide)

/-- Rate-limiter state used by the C8 counterexample: agent "a" holds one
timestamp (0) that is expired at time 100. -/
def c8State : RateLimiterState :=
  { config := {}, minute_windows := fun _ => [0], hour_windows := fun _ => [],
    locked_agents := fun _ => none }

/-- C8 counterexample: `get_agent_status` does not leave the rate
limiter's state unchanged — at time 100 it evicts the expired timestamp 0
from agent "a"'s minute window, so the state after the call differs from
the state before it. -/
theorem c8_get_agent_status_counterexample :
    ¬ ((get_agent_status c8State "a" 100).2.minute_windows "a" = c8State.minute_windows "a") := by
  decide

/-- C8 (amended): `get_agent_status` returns the agent's current counts,
limits, remaining allowances and lockout state; it never touches the
lockout map, the configuration, or any other agent's windows, and its
only mutation is evicting expired entries from the queried agent's
windows; when no entry is expired the state is fully unchanged. -/
theorem c8_get_agent_status (s : RateLimiterState) (a : String) (now : Nat) :
    ((get_agent_status s a now).1 =
      { agent_id := a,
        minute_requests := ((s.minute_windows a).dropWhile (fun t => t < now - 60)).length,
        minute_limit := s.config.requests_per_minute,
        hour_requests := ((s.hour_windows a).dropWhile (fun t => t < now - 3600)).length,
        hour_limit := s.config.requests_per_hour,
        is_locked := (s.locked_agents a).isSome,
        lockout_until := s.locked_agents a,
        remaining_minute :=
          s.config.requests_per_minute - ((s.minute_windows a).dropWhile (fun t => t < now - 60)).length,
        remaining_hour :=
          s.config.requests_per_hour - ((s.hour_windows a).dropWhile (fun t => t < now - 3600)).length }) ∧
    ((get_agent_status s a now).2.locked_agents = s.locked_agents) ∧
    ((get_agent_status s a now).2.config = s.config) ∧
    (∀ b, ¬ b = a →
      (get_agent_status s a now).2.minute_windows b = s.minute_windows b ∧
      (get_agent_status s a now).2.hour_windows b = s.hour_windows b) ∧
    ((get_agent_status s a now).2.minute_windows a =
      (s.minute_windows a).dropWhile (fun t => t < now - 60)) ∧
    ((get_agent_status s a now).2.hour_windows a =
      (s.hour_windows a).dropWhile (fun t => t < now - 3600)) ∧
    ((∀ t ∈ s.minute_windows a, ¬ t < now - 60) →
     (∀ t ∈ s.hour_windows a, ¬ t < now - 3600) →
     (get_agent_status s a now).2 = s) := by
  refine ⟨?_, rfl, rfl, ?_, ?_, ?_, ?_⟩
  · simp [get_agent_status, clean_windows, updMap]
  · intro b hb
    exact ⟨updMap_ne _ _ _ _ hb, updMap_ne _ _ _ _ hb⟩
  · simp [get_agent_status, clean_windows, updMap]
  · simp [get_agent_status, clean_windows, updMap]
  · intro h1 h2
    have e1 : (s.minute_windows a).dropWhile (fun t => decide (t < now - 60)) = s.minute_windows a :=
      dropWhile_eq_self_of_none _ _ (fun x hx => by simpa using h1 x hx)
    have e2 : (s.hour_windows a).dropWhile (fun t => decide (t < now - 3600)) = s.hour_windows a :=
      dropWhile_eq_self_of_none _ _ (fun x hx => by simpa using h2 x hx)
    show clean_windows s a now = s
    unfold clean_windows
    rw [e1, e2, updMap_self, updMap_self]

/-- Fresh-window state for the C8 witness: nothing is expired at time
100, so the status call leaves the state untouched. -/
def c8Fresh : RateLimiterState :=
  { config := {}, minute_windows := fun _ => [90], hour_windows := fun _ => [50],
    locked_agents := fun _ => none }

/-- Witness for C8 (amended): with no expired entries the state is fully
unchanged. -/
theorem c8_get_agent_status_witness :
    (get_agent_status c8Fresh "a" 100).2 = c8Fresh :=
  (c8_get_agent_status c8Fresh "a" 100).2.2.2.2.2.2 (by decide) (by decide)

/-- Association-list lookup distributes over append, left-biased. -/
theorem lookup_append (k : String) (xs ys : List (String × PVal)) :
    List.lookup k (xs ++ ys) = (List.lookup k xs).or (List.lookup k ys) := by
  induction xs with
  | nil => simp
  | cons p t ih =>
    obtain ⟨a, v⟩ := p
    by_cases h : k = a
    · subst h
      simp [List.lookup]
    · simp [List.lookup, beq_eq_false_iff_ne.mpr h, ih]

/-- Lookup in the overridden copy of `t` built by `dictUpdate`. -/
theorem lookup_dictUpdate_map (o : List (String × PVal)) (k : String) :
    ∀ t : List (String × PVal),
      List.lookup k (t.map fun p =>
          match List.lookup p.1 o with
          | some v => (p.1, v)
          | none => p) =
        (List.lookup k t).map (fun v => (List.lookup k o).getD v) := by
  intro t
  induction t with
  | nil => rfl
  | cons p t ih =>
    obtain ⟨a, v⟩ := p
    by_cases hk : k = a
    · subst hk
      cases ho : List.lookup k o with
      | some w => simp [List.lookup, ho]
      | none => simp [List.lookup, ho]
    · cases ho : List.lookup a o with
      | some w => simp [List.lookup, ho, beq_eq_false_iff_ne.mpr hk, ih]
      | none => simp [List.lookup, ho, beq_eq_false_iff_ne.mpr hk, ih]

/-- Lookup of a key absent from `t` in the keys-only-in-`o` tail built by
`dictUpdate`. -/
theorem lookup_filter_notin (t : List (String × PVal)) (k : String)
    (hk : List.lookup k t = none) (o : List (String × PVal)) :
    List.lookup k (o.filter fun p => (List.lookup p.1 t).isNone) = List.lookup k o := by
  induction o with
  | nil => rfl
  | cons p o ih =>
    obtain ⟨a, v⟩ := p
    by_cases hkk : k = a
    · subst hkk
      simp [List.filter_cons, hk, List.lookup]
    · cases hp : (List.lookup a t).isNone with
      | true => simp [List.filter_cons, hp, List.lookup, beq_eq_false_iff_ne.mpr hkk, ih]
      | false => simp [List.filter_cons, hp, ih, List.lookup, beq_eq_false_iff_ne.mpr hkk]

/-- Per-key semantics of the Python dict merge: the override's value wins
where present, the template's value passes through otherwise. -/
theorem lookup_dictUpdate (t o : List (String × PVal)) (k : String) :
    List.lookup k (dictUpdate t o) = (List.lookup k o).or (List.lookup k t) := by
  unfold dictUpdate
  rw [lookup_append, lookup_dictUpdate_map]
  cases ht : List.lookup k t with
  | some v =>
    cases ho : List.lookup k o with
    | some w => simp [Option.or]
    | none => simp [Option.or]
  | none =>
    rw [lookup_filter_notin t k ht o]
    cases List.lookup k o <;> simp [Option.or]

/-- C2 (amended): with no role-template reference the effective
permissions are the agent's own map exactly; with a reference that
resolves to an active template `T` whose permission map is nonempty, the
effective permissions agree per key with `T.permissions` overridden by
the agent's override map (override wins per key, non-overridden template
keys pass through, override-only keys are added).  When the resolved
template permission map is empty the code instead falls back to the
agent's own map (see the counterexample). -/
theorem c2_effective_permissions (env : DbEnv) (cache : List (String × RoleTemplateRec))
    (aid : String) (A : AgentRec)
    (hA : env.agentFetchFails = false)
    (hfind : env.agents.find? (fun a => a.id == aid) = some A) :
    (A.role_template_id.getD "" = "" →
      (get_effective_permissions env cache aid).1 = A.permissions) ∧
    (∀ rid T, A.role_template_id = some rid → ¬ rid = "" →
      List.lookup rid cache = none →
      env.roleFetchFails = false →
      env.role_templates.find? (fun r => r.id == rid && r.is_active) = some T →
      ¬ T.permissions = [] →
      ∀ k, List.lookup k (get_effective_permissions env cache aid).1 =
        (List.lookup k (A.permissions_override.getD [])).or (List.lookup k T.permissions)) := by
  constructor
  · intro h
    simp [get_effective_permissions, hA, hfind, h]
  · intro rid T h1 h2 h3 h4 h5 h6 k
    have hrp : getRolePermissions env cache rid = (T.permissions, (rid, T) :: cache) := by
      simp [getRolePermissions, h3, h4, h5]
    have hne : T.permissions.isEmpty = false := by
      cases hT : T.permissions with
      | nil => exact absurd hT h6
      | cons x xs => rfl
    cases hov : (A.permissions_override.getD []).isEmpty with
    | true =>
      have hovnil : A.permissions_override.getD [] = [] := by
        cases hx : A.permissions_override.getD [] with
        | nil => rfl
        | cons y ys => rw [hx] at hov; exact Bool.noConfusion hov
      simp [get_effective_permissions, hA, hfind, h1, h2, hrp, hne, hovnil]
    | false =>
      simp [get_effective_permissions, hA, hfind, h1, h2, hrp, hne, hov]
      rw [lookup_dictUpdate]

/-- Agent record for the C2 counterexample and scenario databases. -/
def c2Agent : AgentRec :=
  { id := "a1", permissions := [("p", PVal.pbool true)],
    permissions_override := some [("x", PVal.pbool true)],
    role_template_id := some "r1" }

/-- Database for the C2 counterexample: agent `a1` references the active
template `r1` whose permission map is empty and carries a nonempty
override map. -/
def c2Env : DbEnv :=
  { agents := [c2Agent],
    role_templates := [{ id := "r1", permissions := [] }] }

/-- C2 counterexample: with template permissions empty, the code returns
the agent's own map (no key "x") instead of the template map with the
override applied (which would map "x"). -/
theorem c2_effective_permissions_counterexample :
    ¬ ((get_effective_permissions c2Env [] "a1").1 =
        dictUpdate ([] : List (String × PVal)) [("x", PVal.pbool true)]) := by
  intro h
  have h2 : List.lookup "x" (get_effective_permissions c2Env [] "a1").1 =
      List.lookup "x" (dictUpdate ([] : List (String × PVal)) [("x", PVal.pbool true)]) :=
    congrArg (List.lookup "x") h
  rw [show List.lookup "x" (get_effective_permissions c2Env [] "a1").1 = none from rfl] at h2
  exact Option.noConfusion (h2.trans (rfl))

/-- Template record for the C2 witness database. -/
def c2WTemplate : RoleTemplateRec :=
  { id := "r1", permissions := [("q", PVal.pbool false), ("x", PVal.pbool false)] }

/-- Database for the C2 witness: same agent, but the template map is
nonempty. -/
def c2WEnv : DbEnv :=
  { agents := [c2Agent], role_templates := [c2WTemplate] }

/-- Witness for C2 (amended), evaluated at key "x": the override value
wins over the template value. -/
theorem c2_effective_permissions_witness :
    List.lookup "x" (get_effective_permissions c2WEnv [] "a1").1 =
      (List.lookup "x" (c2Agent.permissions_override.getD [])).or
        (List.lookup "x" c2WTemplate.permissions) :=
  (c2_effective_permissions c2WEnv [] "a1" c2Agent rfl rfl).2 "r1" c2WTemplate rfl
    (by decide) rfl rfl rfl (by simp [c2WTemplate]) "x"

/-- Agent record for the C3 databases. -/
def c3Agent : AgentRec :=
  { id := "a1", permissions := [("p", PVal.pbool true)], role_template_id := some "r1" }

/-- Database for the C3 counterexample: the role-template query raises
while the agent holds a nonempty permission map of its own. -/
def c3Env : DbEnv :=
  { agents := [c3Agent],
    role_templates := [{ id := "r1", permissions := [("q", PVal.pbool true)] }],
    roleFetchFails := true }

/-- C3 counterexample: a role-template lookup failure does not yield the
empty permission map — the agent's own nonempty map is returned. -/
theorem c3_lookup_failures_counterexample :
    ¬ ((get_effective_permissions c3Env [] "a1").1 = []) := by
  intro h
  exact List.noConfusion (show ([("p", PVal.pbool true)] : List (String × PVal)) = [] from h)

/-- C3 (amended): an agent fetch failure or a missing agent record yields
the empty permission map (fail-closed), and the function is total, so no
exception reaches the caller; a role-template lookup failure or a
missing/inactive template instead falls back to the agent's own
permission map. -/
theorem c3_lookup_failures (env : DbEnv) (cache : List (String × RoleTemplateRec)) (aid : String) :
    (env.agentFetchFails = true → (get_effective_permissions env cache aid).1 = []) ∧
    (env.agents.find? (fun a => a.id == aid) = none →
      (get_effective_permissions env cache aid).1 = []) ∧
    (∀ A rid, env.agentFetchFails = false →
      env.agents.find? (fun a => a.id == aid) = some A →
      A.role_template_id = some rid → ¬ rid = "" →
      (getRolePermissions env cache rid).1 = [] →
      (get_effective_permissions env cache aid).1 = A.permissions) := by
  refine ⟨?_, ?_, ?_⟩
  · intro h
    simp [get_effective_permissions, h]
  · intro h
    cases hA : env.agentFetchFails with
    | true => simp [get_effective_permissions, hA]
    | false => simp [get_effective_permissions, hA, h]
  · intro A rid hA hfind h1 h2 h3
    simp [get_effective_permissions, hA, hfind, h1, h2, h3]

/-- Witness for C3 (amended): role fetch failure falls back to the
agent's own permissions. -/
theorem c3_lookup_failures_witness :
    (get_effective_permissions c3Env [] "a1").1 = c3Agent.permissions :=
  (c3_lookup_failures c3Env [] "a1").2.2 c3Agent "r1" rfl rfl rfl (by decide) rfl

/-- Elements surviving `dropWhile (· < c)` on a sorted list are all at
least `c`. -/
theorem sorted_dropWhile_ge (c : Nat) (l : List Nat) (hs : l.Sorted (· ≤ ·)) :
    ∀ x ∈ l.dropWhile (fun t => decide (t < c)), c ≤ x := by
  induction l with
  | nil => intro x hx; simp [List.dropWhile] at hx
  | cons a t ih =>
    intro x hx
    have hs' := List.sorted_cons.mp hs
    by_cases ha : a < c
    · rw [List.dropWhile_cons_of_pos (by simpa using ha)] at hx
      exact ih hs'.2 x hx
    · rw [List.dropWhile_cons_of_neg (by simpa using ha)] at hx
      rcases List.mem_cons.mp hx with hx | hx
      · omega
      · have := hs'.1 x hx
        omega


/-- Agent `a`'s minute window after the post-lockout body: either just
cleaned (denial branches) or cleaned with `now` appended (allow branch). -/
theorem rl_check_body_minute_window (s : RateLimiterState) (a : String) (now : Nat) :
    (rl_check_body s a now).state.minute_windows a =
      (s.minute_windows a).dropWhile (fun t => decide (t < now - 60)) ∨
    (rl_check_body s a now).state.minute_windows a =
      (s.minute_windows a).dropWhile (fun t => decide (t < now - 60)) ++ [now] := by
  by_cases h1 : s.config.requests_per_minute ≤
      ((s.minute_windows a).dropWhile (fun t => decide (t < now - 60))).length
  · left
    simp [rl_check_body, clean_windows, apply_lockout, updMap, h1]
  · by_cases h2 : s.config.requests_per_hour ≤
        ((s.hour_windows a).dropWhile (fun t => decide (t < now - 3600))).length
    · left
      simp [rl_check_body, clean_windows, apply_lockout, updMap, h1, h2]
    · right
      simp [rl_check_body, clean_windows, apply_lockout, updMap, h1, h2]

/-- Agent `a`'s hour window after the post-lockout body: either just
cleaned or cleaned with `now` appended. -/
theorem rl_check_body_hour_window (s : RateLimiterState) (a : String) (now : Nat) :
    (rl_check_body s a now).state.hour_windows a =
      (s.hour_windows a).dropWhile (fun t => decide (t < now - 3600)) ∨
    (rl_check_body s a now).state.hour_windows a =
      (s.hour_windows a).dropWhile (fun t => decide (t < now - 3600)) ++ [now] := by
  by_cases h1 : s.config.requests_per_minute ≤
      ((s.minute_windows a).dropWhile (fun t => decide (t < now - 60))).length
  · left
    simp [rl_check_body, clean_windows, apply_lockout, updMap, h1]
  · by_cases h2 : s.config.requests_per_hour ≤
        ((s.hour_windows a).dropWhile (fun t => decide (t < now - 3600))).length
    · left
      simp [rl_check_body, clean_windows, apply_lockout, updMap, h1, h2]
    · right
      simp [rl_check_body, clean_windows, apply_lockout, updMap, h1, h2]

/-- C6: after a `check_rate_limit` call that is not short-circuited by an
active lockout, and after any `get_agent_status` call, the agent's minute
window has no entry older than 1 minute and its hour window no entry
older than 1 hour (entries are kept iff `cutoff ≤ t`, so a timestamp 61
seconds old is gone from the minute window).  Window queues of reachable
states are sorted — calls receive nondecreasing `now` values — which the
sortedness hypotheses capture. -/
theorem c6_sliding_window_eviction (s : RateLimiterState) (a : String) (now : Nat)
    (hm : (s.minute_windows a).Sorted (· ≤ ·))
    (hh : (s.hour_windows a).Sorted (· ≤ ·))
    (hnl : ∀ e, s.locked_agents a = some e → e ≤ now) :
    (∀ t ∈ (check_rate_limit s a now).state.minute_windows a, now - 60 ≤ t) ∧
    (∀ t ∈ (check_rate_limit s a now).state.hour_windows a, now - 3600 ≤ t) ∧
    (∀ t ∈ (get_agent_status s a now).2.minute_windows a, now - 60 ≤ t) ∧
    (∀ t ∈ (get_agent_status s a now).2.hour_windows a, now - 3600 ≤ t) := by
  have hmb := sorted_dropWhile_ge (now - 60) (s.minute_windows a) hm
  have hhb := sorted_dropWhile_ge (now - 3600) (s.hour_windows a) hh
  have hstat_m : (get_agent_status s a now).2.minute_windows a =
      (s.minute_windows a).dropWhile (fun t => decide (t < now - 60)) := by
    simp [get_agent_status, clean_windows, updMap]
  have hstat_h : (get_agent_status s a now).2.hour_windows a =
      (s.hour_windows a).dropWhile (fun t => decide (t < now - 3600)) := by
    simp [get_agent_status, clean_windows, updMap]
  obtain ⟨s', hkey, hsm, hsh⟩ : ∃ s' : RateLimiterState,
      (check_rate_limit s a now).state = (rl_check_body s' a now).state ∧
      s'.minute_windows = s.minute_windows ∧ s'.hour_windows = s.hour_windows := by
    unfold check_rate_limit
    cases hl : s.locked_agents a with
    | none => exact ⟨s, rfl, rfl, rfl⟩
    | some e =>
      have hne : ¬ now < e := by
        have := hnl e hl
        omega
      simp only [hne, if_false]
      exact ⟨{ s with locked_agents := updMap s.locked_agents a none }, rfl, rfl, rfl⟩
  refine ⟨?_, ?_, ?_, ?_⟩
  · intro t ht
    rw [hkey] at ht
    rcases rl_check_body_minute_window s' a now with hw | hw <;> rw [hw, hsm] at ht
    · exact hmb t ht
    · rcases List.mem_append.mp ht with hx | hx
      · exact hmb t hx
      · have : t = now := by simpa using hx
        omega
  · intro t ht
    rw [hkey] at ht
    rcases rl_check_body_hour_window s' a now with hw | hw <;> rw [hw, hsh] at ht
    · exact hhb t ht
    · rcases List.mem_append.mp ht with hx | hx
      · exact hhb t hx
      · have : t = now := by simpa using hx
        omega
  · intro t ht
    rw [hstat_m] at ht
    exact hmb t ht
  · intro t ht
    rw [hstat_h] at ht
    exact hhb t ht

/-- State for the C6 witness: one stale entry (30) and one fresh entry
(90) in each window of agent "A" at time 100. -/
def c6State : RateLimiterState :=
  { config := {}, minute_windows := fun _ => [30, 90], hour_windows := fun _ => [30, 90],
    locked_agents := fun _ => none }

/-- Witness for C6 at the concrete state, agent "A", time 100. -/
theorem c6_sliding_window_eviction_witness :
    (∀ t ∈ (check_rate_limit c6State "A" 100).state.minute_windows "A", 100 - 60 ≤ t) ∧
    (∀ t ∈ (check_rate_limit c6State "A" 100).state.hour_windows "A", 100 - 3600 ≤ t) ∧
    (∀ t ∈ (get_agent_status c6State "A" 100).2.minute_windows "A", 100 - 60 ≤ t) ∧
    (∀ t ∈ (get_agent_status c6State "A" 100).2.hour_windows "A", 100 - 3600 ≤ t) :=
  c6_sliding_window_eviction c6State "A" 100 (by decide) (by decide)
    (fun e h => Option.noConfusion h)

/-- Rate-limit configuration of the C1 claim: 5 requests per minute, the
hour cap not binding, 15-minute lockout. -/
def cfg5 : RateLimitConfig :=
  { requests_per_minute := 5, requests_per_hour := 1000, burst_allowance := 10,
    lockout_duration_minutes := 15 }

/-- One `check_rate_limit` call, keeping only the successor state. -/
def c1Step (a : String) (p : RateLimiterState) (t : Nat) : RateLimiterState :=
  (check_rate_limit p a t).state

/-- State of a fresh `cfg5` rate limiter after calls at times `ts`. -/
def c1State (a : String) (ts : List Nat) : RateLimiterState :=
  ts.foldl (c1Step a) (rlInit cfg5)

/-- Outcome of the next `check_rate_limit` call at time `t` after calls
at times `ts`. -/
def c1Allowed (a : String) (ts : List Nat) (t : Nat) : Bool :=
  (check_rate_limit (c1State a ts) a t).allowed

/-- C1: while a lockout entry with `now < expiry` exists,
`check_rate_limit` denies and leaves the state untouched, regardless of
the window contents; and for every agent of a fresh limiter with
`requests_per_minute = 5`, calls at seconds 0..4 are allowed and append
their timestamp to both windows, the 6th call (second 5) is denied,
appends nothing and records a lockout expiring at `5 + 15*60 = 905`, the
7th call (second 6, before expiry) is denied with the state fully
unchanged, and the first call at the expiry (second 905) clears the
lockout and is allowed. -/
theorem c1_rate_limit_sequence :
    (∀ (s : RateLimiterState) (a : String) (now e : Nat),
        s.locked_agents a = some e → now < e →
        check_rate_limit s a now = { allowed := false, state := s, events := [] }) ∧
    (∀ a : String,
      (c1Allowed a [] 0 = true ∧ (c1State a [0]).minute_windows a = [0] ∧
        (c1State a [0]).hour_windows a = [0]) ∧
      (c1Allowed a [0] 1 = true ∧ (c1State a [0, 1]).minute_windows a = [0, 1] ∧
        (c1State a [0, 1]).hour_windows a = [0, 1]) ∧
      (c1Allowed a [0, 1] 2 = true ∧ (c1State a [0, 1, 2]).minute_windows a = [0, 1, 2] ∧
        (c1State a [0, 1, 2]).hour_windows a = [0, 1, 2]) ∧
      (c1Allowed a [0, 1, 2] 3 = true ∧
        (c1State a [0, 1, 2, 3]).minute_windows a = [0, 1, 2, 3] ∧
        (c1State a [0, 1, 2, 3]).hour_windows a = [0, 1, 2, 3]) ∧
      (c1Allowed a [0, 1, 2, 3] 4 = true ∧
        (c1State a [0, 1, 2, 3, 4]).minute_windows a = [0, 1, 2, 3, 4] ∧
        (c1State a [0, 1, 2, 3, 4]).hour_windows a = [0, 1, 2, 3, 4]) ∧
      (c1Allowed a [0, 1, 2, 3, 4] 5 = false ∧
        (c1State a [0, 1, 2, 3, 4, 5]).minute_windows a = [0, 1, 2, 3, 4] ∧
        (c1State a [0, 1, 2, 3, 4, 5]).hour_windows a = [0, 1, 2, 3, 4] ∧
        (c1State a [0, 1, 2, 3, 4, 5]).locked_agents a = some 905) ∧
      (check_rate_limit (c1State a [0, 1, 2, 3, 4, 5]) a 6 =
        { allowed := false, state := c1State a [0, 1, 2, 3, 4, 5], events := [] }) ∧
      (c1Allowed a [0, 1, 2, 3, 4, 5, 6] 905 = true ∧
        (c1State a [0, 1, 2, 3, 4, 5, 6, 905]).locked_agents a = none ∧
        (c1State a [0, 1, 2, 3, 4, 5, 6, 905]).minute_windows a = [905] ∧
        (c1State a [0, 1, 2, 3, 4, 5, 6, 905]).hour_windows a = [0, 1, 2, 3, 4, 905])) := by
  constructor
  · intro s a now e h1 h2
    simp [check_rate_limit, h1, h2]
  · intro a
    refine ⟨⟨?_, ?_, ?_⟩, ⟨?_, ?_, ?_⟩, ⟨?_, ?_, ?_⟩, ⟨?_, ?_, ?_⟩, ⟨?_, ?_, ?_⟩,
      ⟨?_, ?_, ?_, ?_⟩, ?_, ⟨?_, ?_, ?_, ?_⟩⟩ <;>
      simp [c1Allowed, c1State, c1Step, check_rate_limit, rl_check_body, clean_windows,
        updMap, apply_lockout, rlInit, cfg5]

/-- Locked-out limiter state for the C1 witness. -/
def c1LockedState : RateLimiterState :=
  { config := cfg5, minute_windows := fun _ => [], hour_windows := fun _ => [],
    locked_agents := fun _ => some 50 }

/-- Witness for C1: an agent locked until 50 is denied at time 10 with
the state untouched. -/
theorem c1_rate_limit_sequence_witness :
    check_rate_limit c1LockedState "A" 10 =
      { allowed := false, state := c1LockedState, events := [] } :=
  c1_rate_limit_sequence.1 c1LockedState "A" 10 50 rfl (by decide)

/-- A logger with positive capacity ends with the entry just logged. -/
theorem getLast?_log_event (al : AuditLoggerState) (e : AuditLogEntry)
    (h : 1 ≤ al.max_memory_entries) :
    (log_event al e).memory_log.getLast? = some e := by
  show ((al.memory_log ++ [e]).drop
    ((al.memory_log ++ [e]).length - al.max_memory_entries)).getLast? = some e
  have hk : (al.memory_log ++ [e]).length - al.max_memory_entries ≤ al.memory_log.length := by
    rw [List.length_append]
    simp only [List.length_singleton]
    omega
  rw [List.drop_append_of_le_length hk, List.getLast?_concat]

/-- C9: `authenticate_request` never propagates a fault — an unexpected
internal error yields a denial with a final `authentication_error` audit
entry; a rate-limit denial yields a denial with a final
`request_rate_limited` audit entry; otherwise the call refreshes or
creates the agent's session (with `last_activity = now`), appends a
successful `request_authenticated` entry, and allows. -/
theorem c9_authenticate_request (s : SecurityManagerState) (aid aname : String) (now : Nat)
    (hcap : 1 ≤ s.audit_logger.max_memory_entries) :
    ((check_rate_limit s.rate_limiter aid now).allowed = false →
      ∀ fault, (authenticate_request s aid aname now fault).1 = false ∧
        (authenticate_request s aid aname now fault).2.audit_logger.memory_log.getLast? =
          some (mkApiEntry now aid "request_rate_limited" false [])) ∧
    ((check_rate_limit s.rate_limiter aid now).allowed = true →
      ∀ msg, (authenticate_request s aid aname now (some msg)).1 = false ∧
        (authenticate_request s aid aname now (some msg)).2.audit_logger.memory_log.getLast? =
          some (mkApiEntry now aid "authentication_error" false [("error", msg)])) ∧
    ((check_rate_limit s.rate_limiter aid now).allowed = true →
      (authenticate_request s aid aname now none).1 = true ∧
      (authenticate_request s aid aname now none).2.audit_logger.memory_log.getLast? =
        some (mkApiEntry now aid "request_authenticated" true []) ∧
      ∃ info,
        (authenticate_request s aid aname now none).2.session_manager.sessions aid = some info ∧
        info.last_activity = now) := by
  refine ⟨?_, ?_, ?_⟩
  · intro h fault
    constructor
    · simp [authenticate_request, h]
    · simp only [authenticate_request, h]
      simp only [Bool.false_eq_true, if_true, if_pos rfl]
      exact getLast?_log_event _ _ (by rw [log_events_cap]; exact hcap)
  · intro h msg
    constructor
    · simp [authenticate_request, h]
    · simp only [authenticate_request, h]
      simp [getLast?_log_event _ _ (show 1 ≤ (log_events s.audit_logger
        (check_rate_limit s.rate_limiter aid now).events).max_memory_entries by
          rw [log_events_cap]; exact hcap)]
  · intro h
    refine ⟨by simp [authenticate_request, h], ?_, ?_⟩
    · simp only [authenticate_request, h]
      simp [getLast?_log_event _ _ (show 1 ≤ (log_events (log_events s.audit_logger
        (check_rate_limit s.rate_limiter aid now).events)
          (create_session s.session_manager aid aname now).2).max_memory_entries by
            rw [log_events_cap, log_events_cap]; exact hcap)]
    · cases hs : s.session_manager.sessions aid with
      | some sess =>
        refine ⟨{ sess with last_activity := now, request_count := sess.request_count + 1 },
          ?_, rfl⟩
        simp [authenticate_request, h, create_session, hs, updMap]
      | none =>
        refine ⟨⟨aid, aname, now, now, 1, 0, false, none⟩, ?_, rfl⟩
        simp [authenticate_request, h, create_session, hs, updMap]

/-- Fresh security-manager state for the C9 witness. -/
def c9State : SecurityManagerState :=
  { rate_limiter := rlInit {}, session_manager := { sessions := fun _ => none },
    audit_logger := auditInit 1000 }

/-- Witness for C9 on the success path at a fresh state. -/
theorem c9_authenticate_request_witness :
    (authenticate_request c9State "A" "Agent" 0 none).1 = true ∧
    (authenticate_request c9State "A" "Agent" 0 none).2.audit_logger.memory_log.getLast? =
      some (mkApiEntry 0 "A" "request_authenticated" true []) ∧
    ∃ info,
      (authenticate_request c9State "A" "Agent" 0 none).2.session_manager.sessions "A" =
        some info ∧ info.last_activity = 0 :=
  (c9_authenticate_request c9State "A" "Agent" 0 (by decide)).2.2 (by decide)

/-- C5: with `daily_articles = N > 0` configured (and the monthly cap 0
or not yet reached), the detailed quota check denies at a daily count of
`N` with remaining daily quota 0, and allows at `N - 1` reporting
remaining daily quota 1; a cap of 0 disables the corresponding check
(unlimited). -/
theorem c5_quota_limits_detailed :
    (∀ (perms ql : List (String × PVal)) (N M mc : Nat),
       List.lookup "quota_limits" perms = some (.pobj ql) →
       List.lookup "daily_articles" ql = some (.pnat N) →
       List.lookup "monthly_articles" ql = some (.pnat M) →
       0 < N →
       (check_quota_limits_detailed N mc perms).allowed = false ∧
       (check_quota_limits_detailed N mc perms).remaining_quota = some [("daily", 0)]) ∧
    (∀ (perms ql : List (String × PVal)) (N M mc : Nat),
       List.lookup "quota_limits" perms = some (.pobj ql) →
       List.lookup "daily_articles" ql = some (.pnat N) →
       List.lookup "monthly_articles" ql = some (.pnat M) →
       0 < N → (M = 0 ∨ mc < M) →
       (check_quota_limits_detailed (N - 1) mc perms).allowed = true ∧
       List.lookup "daily"
         ((check_quota_limits_detailed (N - 1) mc perms).remaining_quota.getD []) = some 1) ∧
    (∀ (perms ql : List (String × PVal)) (dc mc : Nat),
       List.lookup "quota_limits" perms = some (.pobj ql) →
       List.lookup "daily_articles" ql = some (.pnat 0) →
       List.lookup "monthly_articles" ql = some (.pnat 0) →
       (check_quota_limits_detailed dc mc perms).allowed = true) := by
  refine ⟨?_, ?_, ?_⟩
  · intro perms ql N M mc hql hd hm hN
    have hqlne : ql ≠ [] := by
      intro h
      rw [h] at hd
      exact Option.noConfusion hd
    simp [check_quota_limits_detailed, check_quota_body, hql, hd, hqlne, pyTruthy, pGetObj,
      pAsNat, hN, Nat.le_refl, bind, Except.bind, pure, Except.pure]
  · intro perms ql N M mc hql hd hm hN hM
    have hqlne : ql ≠ [] := by
      intro h
      rw [h] at hd
      exact Option.noConfusion hd
    have hd1 : ¬ (N ≤ N - 1) := by omega
    have hsub : N - (N - 1) = 1 := by omega
    rcases hM with hM | hM
    · subst hM
      simp [check_quota_limits_detailed, check_quota_body, hql, hd, hm, hqlne, pyTruthy,
        pGetObj, pAsNat, hN, hd1, hsub, bind, Except.bind, pure, Except.pure, List.lookup]
    · have hm1 : ¬ (M ≤ mc) := by omega
      have hm0 : 0 < M := by omega
      simp [check_quota_limits_detailed, check_quota_body, hql, hd, hm, hqlne, pyTruthy,
        pGetObj, pAsNat, hN, hd1, hsub, hm1, hm0, bind, Except.bind, pure, Except.pure,
        List.lookup]
  · intro perms ql dc mc hql hd hm
    have hqlne : ql ≠ [] := by
      intro h
      rw [h] at hd
      exact Option.noConfusion hd
    simp [check_quota_limits_detailed, check_quota_body, hql, hd, hm, hqlne, pyTruthy,
      pGetObj, pAsNat, bind, Except.bind, pure, Except.pure]

/-- Permission map for the C5 witness: daily cap 2, monthly cap 0. -/
def c5Perms : List (String × PVal) :=
  [("quota_limits", .pobj [("daily_articles", .pnat 2), ("monthly_articles", .pnat 0)])]

/-- Witness for C5 at `N = 2`, daily count 1: allowed with remaining
daily quota 1. -/
theorem c5_quota_limits_detailed_witness :
    (check_quota_limits_detailed (2 - 1) 0 c5Perms).allowed = true ∧
    List.lookup "daily"
      ((check_quota_limits_detailed (2 - 1) 0 c5Perms).remaining_quota.getD []) = some 1 :=
  c5_quota_limits_detailed.2.1 c5Perms
    [("daily_articles", PVal.pnat 2), ("monthly_articles", PVal.pnat 0)] 2 0 0 rfl rfl rfl
    (by decide) (Or.inl rfl)

/-- C4: the working-hours step fails open — any error raised while
resolving the restriction (in particular an unknown timezone name, or a
malformed start time reached after the weekday test passes) makes the
check allow; when resolution succeeds the check allows exactly when the
1-based local weekday is a configured working day and the local time of
day lies in the closed interval from start to end. -/
theorem c4_working_hours (env : ClockEnv) (perms : List (String × PVal)) :
    (∀ e, check_working_hours_body env perms = .error e →
      check_working_hours env perms = true) ∧
    (∀ ql wh tzName,
      List.lookup "quota_limits" perms = some (.pobj ql) →
      List.lookup "working_hours" ql = some (.pobj wh) →
      List.lookup "enabled" wh = some (.pbool true) →
      List.lookup "timezone" wh = some (.pstr tzName) →
      List.lookup tzName env.tzdb = none →
      check_working_hours env perms = true) ∧
    (∀ ql wh tzName wd tod ds sS err,
      List.lookup "quota_limits" perms = some (.pobj ql) →
      List.lookup "working_hours" ql = some (.pobj wh) →
      List.lookup "enabled" wh = some (.pbool true) →
      List.lookup "timezone" wh = some (.pstr tzName) →
      List.lookup tzName env.tzdb = some ⟨wd, tod⟩ →
      List.lookup "working_days" wh = some (.pnats ds) →
      (wd + 1) ∈ ds →
      List.lookup "start" wh = some (.pstr sS) →
      time_fromisoformat sS = .error err →
      check_working_hours env perms = true) ∧
    (∀ ql wh tzName wd tod ds sS eS sN eN,
      List.lookup "quota_limits" perms = some (.pobj ql) →
      List.lookup "working_hours" ql = some (.pobj wh) →
      List.lookup "enabled" wh = some (.pbool true) →
      List.lookup "timezone" wh = some (.pstr tzName) →
      List.lookup tzName env.tzdb = some ⟨wd, tod⟩ →
      List.lookup "working_days" wh = some (.pnats ds) →
      List.lookup "start" wh = some (.pstr sS) →
      List.lookup "end" wh = some (.pstr eS) →
      time_fromisoformat sS = .ok sN →
      time_fromisoformat eS = .ok eN →
      (check_working_hours env perms = true ↔
        ((wd + 1) ∈ ds ∧ sN ≤ tod ∧ tod ≤ eN))) := by
  refine ⟨?_, ?_, ?_, ?_⟩
  · intro e h
    unfold check_working_hours
    rw [h]
  · intro ql wh tzName h1 h2 h3 h4 h5
    simp [check_working_hours, check_working_hours_body, h1, h2, h3, h4, h5, pGetObj,
      pAsStr, pyTruthy, bind, Except.bind, pure, Except.pure]
  · intro ql wh tzName wd tod ds sS err h1 h2 h3 h4 h5 h6 hin h7 h8
    simp [check_working_hours, check_working_hours_body, h1, h2, h3, h4, h5, h6, hin, h7,
      h8, pGetObj, pAsStr, pAsNatList, pyTruthy, bind, Except.bind, pure, Except.pure]
  · intro ql wh tzName wd tod ds sS eS sN eN h1 h2 h3 h4 h5 h6 h7 h8 h9 h10
    by_cases hin : (wd + 1) ∈ ds
    · simp [check_working_hours, check_working_hours_body, h1, h2, h3, h4, h5, h6, h7, h8,
        h9, h10, hin, pGetObj, pAsStr, pAsNatList, pyTruthy, bind, Except.bind, pure,
        Except.pure]
    · simp [check_working_hours, check_working_hours_body, h1, h2, h3, h4, h5, h6, h7, h8,
        h9, h10, hin, pGetObj, pAsStr, pAsNatList, pyTruthy, bind, Except.bind, pure,
        Except.pure]

/-- Working-hours configuration for the C4 witness: Monday-Friday,
09:00-17:00, UTC. -/
def c4Perms : List (String × PVal) :=
  [("quota_limits", .pobj [("working_hours", .pobj
    [("enabled", .pbool true), ("timezone", .pstr "UTC"),
     ("working_days", .pnats [1, 2, 3, 4, 5]),
     ("start", .pstr "09:00"), ("end", .pstr "17:00")])])]

/-- Clock for the C4 witness: local Monday, 10:00 (36000 seconds). -/
def c4Env : ClockEnv := { tzdb := [("UTC", ⟨0, 36000⟩)] }

/-- Witness for C4 on the success characterization: Monday 10:00 against
Monday-Friday 09:00-17:00. -/
theorem c4_working_hours_witness :
    check_working_hours c4Env c4Perms = true ↔
      ((0 + 1) ∈ [1, 2, 3, 4, 5] ∧ 32400 ≤ 36000 ∧ 36000 ≤ 61200) :=
  (c4_working_hours c4Env c4Perms).2.2.2
    [("working_hours", .pobj
      [("enabled", .pbool true), ("timezone", .pstr "UTC"),
       ("working_days", .pnats [1, 2, 3, 4, 5]),
       ("start", .pstr "09:00"), ("end", .pstr "17:00")])]
    [("enabled", .pbool true), ("timezone", .pstr "UTC"),
     ("working_days", .pnats [1, 2, 3, 4, 5]),
     ("start", .pstr "09:00"), ("end", .pstr "17:00")]
    "UTC" 0 36000 [1, 2, 3, 4, 5] "09:00" "17:00" 32400 61200
    rfl rfl rfl rfl rfl rfl rfl rfl rfl rfl
